import Mathlib

/-!
Shallow embedding, in Lean 4, of the media-upload and entry-store workflow of
the my-memoir-stream journaling application (source files
src/hooks/useMediaUpload.ts and the useEntries hook in
src/components/AppSidebar.tsx).  Pure functions of the source become Lean
functions; the remote relational store, the blob store and the authenticated
session become explicit values threaded through each operation; each remote
call that can fail takes an explicit failure flag standing for the backend
reply.  Machine numbers are modelled as Nat (file sizes and epoch
milliseconds are non-negative in every reachable state).
-/

/-! ## MediaUploader: data model (useMediaUpload.ts) -/

/-- Browser File object as the uploader reads it: name, size in bytes, and
declared MIME type (the file.type field). -/
structure FileInfo where
  name : String
  size : Nat
  type : String
deriving DecidableEq

/-- One category of SUPPORTED_FILE_TYPES: accepted MIME types, size ceiling in
bytes, and the file extensions listed for the category. -/
structure FileTypeConfig where
  mimeTypes : List String
  maxSize : Nat
  extensions : List String
deriving DecidableEq

/-- Images category of SUPPORTED_FILE_TYPES (10 MB ceiling). -/
def imagesConfig : FileTypeConfig :=
  { mimeTypes := ["image/jpeg", "image/png", "image/gif", "image/webp"]
    maxSize := 10 * 1024 * 1024
    extensions := [".jpg", ".jpeg", ".png", ".gif", ".webp"] }

/-- Audio category of SUPPORTED_FILE_TYPES (50 MB ceiling). -/
def audioConfig : FileTypeConfig :=
  { mimeTypes := ["audio/mpeg", "audio/wav", "audio/ogg", "audio/mp4"]
    maxSize := 50 * 1024 * 1024
    extensions := [".mp3", ".wav", ".ogg", ".m4a"] }

/-- Video category of SUPPORTED_FILE_TYPES (100 MB ceiling). -/
def videoConfig : FileTypeConfig :=
  { mimeTypes := ["video/mp4", "video/webm", "video/ogg"]
    maxSize := 100 * 1024 * 1024
    extensions := [".mp4", ".webm", ".ogv"] }

/-- Documents category of SUPPORTED_FILE_TYPES (25 MB ceiling). -/
def documentsConfig : FileTypeConfig :=
  { mimeTypes := ["application/pdf", "text/plain", "application/zip"]
    maxSize := 25 * 1024 * 1024
    extensions := [".pdf", ".txt", ".zip"] }

/-- The SUPPORTED_FILE_TYPES table, in the object-literal order that
Object.values enumerates it: images, audio, video, documents. -/
def SUPPORTED_FILE_TYPES : List FileTypeConfig :=
  [imagesConfig, audioConfig, videoConfig, documentsConfig]

/-- Result record of validateFile. -/
structure ValidationResult where
  isValid : Bool
  error : Option String
deriving DecidableEq

/-- Every supported MIME type, as computed inside validateFile by flattening
the mimeTypes of every category of the table. -/
def allSupportedTypes : List String :=
  (SUPPORTED_FILE_TYPES.map (fun t => t.mimeTypes)).flatten

/-- Direct translation of validateFile: reject a file whose declared type is
outside allSupportedTypes, then look up the first category containing the
type and reject the file when its size strictly exceeds that category's
maxSize; otherwise the file is valid.  The function is pure and synchronous
in the source as well: it reads only the name, size and type fields. -/
def validateFile (file : FileInfo) : ValidationResult :=
  if file.type ∈ allSupportedTypes then
    match SUPPORTED_FILE_TYPES.find? (fun config => config.mimeTypes.contains file.type) with
    | some fileTypeConfig =>
        if file.size > fileTypeConfig.maxSize then
          { isValid := false
            error := some ("File size exceeds " ++ toString (fileTypeConfig.maxSize / (1024 * 1024)) ++ "MB limit") }
        else { isValid := true, error := none }
    | none => { isValid := true, error := none }
  else
    { isValid := false, error := some ("File type " ++ file.type ++ " is not supported") }

/-- Characters from the last dot of the list onward (dot included); empty when
the list holds no dot. -/
def tailFromLastDot : List Char → List Char
  | [] => []
  | c :: cs =>
      if '.' ∈ cs then tailFromLastDot cs
      else if c = '.' then c :: cs
      else []

/-- JavaScript fileName.substring(fileName.lastIndexOf('.')): the suffix
starting at the last dot, and — because substring clamps the index -1 to 0 —
the whole name when it holds no dot. -/
def extensionOf (fileName : String) : String :=
  if '.' ∈ fileName.data then { data := tailFromLastDot fileName.data } else fileName

/-- Direct translation of generateStoragePath.  The source draws timestamp
from Date.now() and randomId from Math.random().toString(36).substring(2);
both are environment inputs here. -/
def generateStoragePath (fileName : String) (userId : String) (timestamp : Nat) (randomId : String) : String :=
  userId ++ "/" ++ toString timestamp ++ "-" ++ randomId ++ extensionOf fileName

/-- One element of the uploadProgress state. -/
structure UploadProgress where
  fileName : String
  progress : Nat
  isComplete : Bool
  error : Option String
deriving DecidableEq

/-- Direct translation of updateProgress: replace the entry keyed by fileName
when one exists, append a fresh entry otherwise. -/
def updateProgress (prev : List UploadProgress) (fileName : String) (progress : Nat)
    (isComplete : Bool) (error : Option String) : List UploadProgress :=
  if prev.any (fun p => p.fileName = fileName) then
    prev.map (fun p =>
      if p.fileName = fileName then
        { fileName := p.fileName, progress := progress, isComplete := isComplete, error := error }
      else p)
  else
    prev ++ [{ fileName := fileName, progress := progress, isComplete := isComplete, error := error }]

/-- Row of the media table (Tables of media in the generated database types). -/
structure MediaRecord where
  id : String
  user_id : String
  entry_id : Option String
  storage_path : String
  file_name : String
  file_size : Nat
  mime_type : String
  created_at : String
deriving DecidableEq

/-- Environment a single file's upload consumes: the Date.now() timestamp and
Math.random token used for its storage path, the backend replies (an external
storage rejection, whether the media-table insert is rejected, and whether the
compensating storage remove after a failed insert itself fails — the source
discards that remove's result, so a failed remove leaves the blob behind),
and the id and created_at the database generates for the inserted row. -/
structure FileEnv where
  timestamp : Nat
  randomId : String
  storageFail : Option String
  dbFail : Bool
  removeFail : Bool
  genId : String
  createdAt : String
deriving DecidableEq

/-- State the upload workflow touches: the set of blob paths present in the
media bucket of the object store, the rows of the media table, the
uploadProgress component state, and the uploadedMedia accumulator that
uploadFiles returns. -/
structure UploadState where
  storage : List String
  media : List MediaRecord
  uploadProgress : List UploadProgress
  uploadedMedia : List MediaRecord
deriving DecidableEq

/-- The media row uploadFiles inserts for a file, as echoed back by the
insert-returning call: the mediaData payload plus the generated id and
created_at. -/
def mkMediaRecord (userId : String) (entryId : Option String) (file : FileInfo) (env : FileEnv) : MediaRecord :=
  { id := env.genId
    user_id := userId
    entry_id := entryId
    storage_path := generateStoragePath file.name userId env.timestamp env.randomId
    file_name := file.name
    file_size := file.size
    mime_type := file.type
    created_at := env.createdAt }

/-- Body of the per-file loop of uploadFiles, translated step by step:
validate (a rejected file only records a terminal progress entry); record
0 percent then the courtesy 50 percent mark; write the blob at the generated
path — with upsert disabled the write fails on an external storage error or
when the path already exists, and a failed write only records a terminal
progress entry; insert the media row — on a database rejection a best-effort
remove of the just-written blob is issued and its result is discarded, so the
blob disappears only when that remove succeeds and stays behind when it fails,
and nothing is appended to the result either way; on full success the row
joins the media table and the uploadedMedia result. -/
def processFile (userId : String) (entryId : Option String) (st : UploadState)
    (file : FileInfo) (env : FileEnv) : UploadState :=
  let validation := validateFile file
  if validation.isValid then
    let st1 := { st with uploadProgress := updateProgress st.uploadProgress file.name 0 false none }
    let storagePath := generateStoragePath file.name userId env.timestamp env.randomId
    let st2 := { st1 with uploadProgress := updateProgress st1.uploadProgress file.name 50 false none }
    if env.storageFail.isSome ∨ storagePath ∈ st2.storage then
      let msg := some (env.storageFail.getD "The resource already exists")
      { st2 with uploadProgress := updateProgress st2.uploadProgress file.name 0 true msg }
    else
      let st3 := { st2 with storage := st2.storage ++ [storagePath] }
      if env.dbFail then
        { st3 with
            uploadProgress := updateProgress st3.uploadProgress file.name 100 true (some "Failed to save file record")
            storage := if env.removeFail then st3.storage else st3.storage.erase storagePath }
      else
        let record := mkMediaRecord userId entryId file env
        { st3 with
            media := st3.media ++ [record]
            uploadProgress := updateProgress st3.uploadProgress file.name 100 true none
            uploadedMedia := st3.uploadedMedia ++ [record] }
  else
    { st with uploadProgress := updateProgress st.uploadProgress file.name 0 true validation.error }

/-- Translation of uploadFiles.  Without an authenticated user it returns the
empty sequence at once and touches neither the object store nor the database
nor the progress state.  Otherwise it clears uploadProgress, starts from an
empty uploadedMedia accumulator, folds processFile over the files in order
(the source loop is strictly sequential), and returns the accumulator. -/
def uploadFiles (user : Option String) (files : List (FileInfo × FileEnv))
    (entryId : Option String) (st : UploadState) : UploadState × List MediaRecord :=
  match user with
  | none => (st, [])
  | some userId =>
      let st0 : UploadState := { st with uploadProgress := [], uploadedMedia := [] }
      let final := files.foldl (fun s fe => processFile userId entryId s fe.1 fe.2) st0
      (final, final.uploadedMedia)

/-- Translation of deleteMedia: fetch the record's storage path scoped by id
and owner (a transport failure or a missing row returns false), remove the
blob (a storage failure is logged and tolerated), then delete the row (a
database failure returns false); true exactly when the row was removed. -/
def deleteMedia (user : Option String) (storage : List String) (media : List MediaRecord)
    (mediaId : String) (fetchFail : Bool) (storageFail : Bool) (dbFail : Bool) :
    List String × List MediaRecord × Bool :=
  match user with
  | none => (storage, media, false)
  | some userId =>
      if fetchFail then (storage, media, false)
      else
        match media.find? (fun m => m.id = mediaId ∧ m.user_id = userId) with
        | none => (storage, media, false)
        | some m =>
            let storage1 := if storageFail then storage else storage.erase m.storage_path
            if dbFail then (storage1, media, false)
            else (storage1, media.filter (fun r => ¬ (r.id = mediaId ∧ r.user_id = userId)), true)

/-! ## EntryStore: data model (useEntries hook) -/

/-- Content document createEntry builds: a text field holding the submitted
content and the submitted tags beside it. -/
structure ContentDoc where
  text : String
  tags : List String
deriving DecidableEq

/-- Row of the entries table (Tables of entries in the generated database
types).  entry_date, created_at and updated_at are ISO-8601 timestamp
strings, as the hook handles them. -/
structure EntryRow where
  id : String
  user_id : String
  title : String
  content : ContentDoc
  entry_date : String
  location_text : Option String
  weather_summary : Option String
  created_at : String
  updated_at : String
deriving DecidableEq

/-- Form payload of createEntry (EntryFormData).  The optional fields are
strings in the source and may be absent; content reaches the hook as the
editor's text. -/
structure EntryFormData where
  title : String
  content : String
  entry_date : Option String
  location_text : Option String
  weather_summary : Option String
  tags : Option (List String)
deriving DecidableEq

/-- Component state the hook keeps: the in-memory entries list, the loading
flag, and the error message. -/
structure EntryStoreState where
  entries : List EntryRow
  loading : Bool
  error : Option String
deriving DecidableEq

/-- JavaScript value-or-default on an optional string, with the falsiness of
the empty string: some s falls through to the default exactly when s is
empty. -/
def orDefault (v : Option String) (dflt : String) : String :=
  match v with
  | some s => if s = "" then dflt else s
  | none => dflt

/-- JavaScript v or null on an optional string: the empty string collapses to
null. -/
def orNull (v : Option String) : Option String :=
  match v with
  | some s => if s = "" then none else some s
  | none => none

/-- Environment one createEntry call consumes: the id, created_at and
updated_at the database generates for the row, the new Date().toISOString()
the hook takes when entry_date is absent, and whether the insert is
rejected. -/
structure CreateEnv where
  genId : String
  now : String
  dbFail : Bool
deriving DecidableEq

/-- Translation of createEntry.  Without a user it returns null at once.
Otherwise it builds the row: content becomes a document holding the text and
the tags (tags default to the empty list), entry_date defaults to the current
time and location_text and weather_summary to null under JavaScript
falsiness.  A rejected insert returns null and leaves every state untouched;
a successful insert-returning call appends the row to the remote table,
prepends it to the in-memory list, and returns it. -/
def createEntry (user : Option String) (db : List EntryRow) (st : EntryStoreState)
    (data : EntryFormData) (env : CreateEnv) :
    List EntryRow × EntryStoreState × Option EntryRow :=
  match user with
  | none => (db, st, none)
  | some userId =>
      if env.dbFail then (db, st, none)
      else
        let newEntry : EntryRow :=
          { id := env.genId
            user_id := userId
            title := data.title
            content := { text := data.content, tags := data.tags.getD [] }
            entry_date := orDefault data.entry_date env.now
            location_text := orNull data.location_text
            weather_summary := orNull data.weather_summary
            created_at := env.now
            updated_at := env.now }
        (db ++ [newEntry], { st with entries := newEntry :: st.entries }, some newEntry)

/-- Partial patch of updateEntry (EntryUpdate): absent fields stay as they
are. -/
structure EntryPatch where
  title : Option String
  content : Option ContentDoc
  entry_date : Option String
  location_text : Option (Option String)
  weather_summary : Option (Option String)
deriving DecidableEq

/-- Apply an updateEntry patch to a row, always refreshing updated_at with
the new Date().toISOString() the call takes. -/
def applyPatch (patch : EntryPatch) (now : String) (e : EntryRow) : EntryRow :=
  { e with
      title := patch.title.getD e.title
      content := patch.content.getD e.content
      entry_date := patch.entry_date.getD e.entry_date
      location_text := patch.location_text.getD e.location_text
      weather_summary := patch.weather_summary.getD e.weather_summary
      updated_at := now }

/-- Translation of updateEntry: update-by-filter scoped by id and owner,
returning the row through a single() call, so the update succeeds exactly
when one row matched; a transport failure or an empty match returns null and
changes nothing.  On success the matching element of the in-memory list is
replaced in place. -/
def updateEntry (user : Option String) (db : List EntryRow) (st : EntryStoreState)
    (id : String) (patch : EntryPatch) (now : String) (remoteFail : Bool) :
    List EntryRow × EntryStoreState × Option EntryRow :=
  match user with
  | none => (db, st, none)
  | some userId =>
      if remoteFail then (db, st, none)
      else
        match db.filter (fun e => e.id = id ∧ e.user_id = userId) with
        | [e] =>
            let updated := applyPatch patch now e
            let db1 := db.map (fun r => if r.id = id ∧ r.user_id = userId then applyPatch patch now r else r)
            (db1, { st with entries := st.entries.map (fun r => if r.id = id then updated else r) }, some updated)
        | _ => (db, st, none)

/-- Translation of deleteEntry.  The remote call is a delete-by-filter scoped
by id and owner with no returning clause: the backend reports an error only
when the command itself fails (the remoteFail flag); a filter that matches no
row — the row does not exist or belongs to another user — completes without
error.  After an error-free command the hook filters the id out of the
in-memory list and returns true. -/
def deleteEntry (user : Option String) (db : List EntryRow) (st : EntryStoreState)
    (id : String) (remoteFail : Bool) : List EntryRow × EntryStoreState × Bool :=
  match user with
  | none => (db, st, false)
  | some userId =>
      if remoteFail then (db, st, false)
      else
        (db.filter (fun e => ¬ (e.id = id ∧ e.user_id = userId)),
         { st with entries := st.entries.filter (fun e => ¬ e.id = id) },
         true)

/-- Translation of loadEntries.  Without a user it only clears the loading
flag.  Otherwise the fetch result stands for the reply to the constructed
select (owner filter, optional search filter, order and limit): a failure
stores the error message and leaves the previous entries visible; a success
replaces the entries and leaves the error cleared. -/
def loadEntries (user : Option String) (st : EntryStoreState)
    (fetchResult : Except String (List EntryRow)) : EntryStoreState :=
  match user with
  | none => { st with loading := false }
  | some _ =>
      match fetchResult with
      | Except.error _ => { st with loading := false, error := some "Failed to load entries" }
      | Except.ok data => { entries := data, loading := false, error := none }

/-- Whether the first character list starts with the second. -/
def startsWithSeq : List Char → List Char → Bool
  | _, [] => true
  | [], _ :: _ => false
  | a :: as, b :: bs => a = b && startsWithSeq as bs

/-- Whether the first character list occurs contiguously inside the
second. -/
def hasSubSeq (needle : List Char) : List Char → Bool
  | [] => needle.isEmpty
  | c :: cs => startsWithSeq (c :: cs) needle || hasSubSeq needle cs

/-- Case-insensitive substring test, the client-side reading of the ilike
pattern the hook builds. -/
def containsCI (hay needle : String) : Bool :=
  hasSubSeq needle.toLower.data hay.toLower.data

/-! Date arithmetic.  Timestamps are UTC epoch milliseconds; the runtime's
local time zone is taken as UTC, so the setHours calls of getEntriesByDate
stay within the written calendar day. -/

/-- Split a character list on a separator character. -/
def splitOnChar (sep : Char) : List Char → List (List Char)
  | [] => [[]]
  | c :: cs =>
      let rest := splitOnChar sep cs
      if c = sep then [] :: rest
      else
        match rest with
        | [] => [[c]]
        | r :: rs => (c :: r) :: rs

/-- Read a non-empty all-digit character list as a number. -/
def digitsToNat : List Char → Option Nat
  | [] => none
  | cs =>
      cs.foldl (fun acc c =>
        match acc with
        | none => none
        | some n => if c.isDigit then some (n * 10 + (c.toNat - 48)) else none) (some 0)

/-- Days from 1970-01-01 to the given civil date (years 1970 and later),
by the standard Gregorian era computation. -/
def daysFromCivil (y m d : Nat) : Nat :=
  let y1 := if m ≤ 2 then y - 1 else y
  let era := y1 / 400
  let yoe := y1 % 400
  let mp := (m + 9) % 12
  let doy := (153 * mp + 2) / 5 + d - 1
  let doe := yoe * 365 + yoe / 4 - yoe / 100 + doy
  era * 146097 + doe - 719468

/-- Parse a YYYY-MM-DD character list into UTC-midnight epoch
milliseconds. -/
def ymdToMs (cs : List Char) : Option Nat :=
  match splitOnChar '-' cs with
  | [ys, ms, ds] =>
      match digitsToNat ys, digitsToNat ms, digitsToNat ds with
      | some y, some m, some d => some (daysFromCivil y m d * 86400000)
      | _, _, _ => none
  | _ => none

/-- Parse an HH:MM:SS.mmmZ character list into milliseconds past
midnight. -/
def timeToMs (cs : List Char) : Option Nat :=
  match splitOnChar ':' cs with
  | [hs, ms, rest] =>
      match splitOnChar '.' rest with
      | [ss, tail] =>
          match splitOnChar 'Z' tail with
          | [mls, []] =>
              match digitsToNat hs, digitsToNat ms, digitsToNat ss, digitsToNat mls with
              | some h, some mi, some s, some ml =>
                  some (h * 3600000 + mi * 60000 + s * 1000 + ml)
              | _, _, _, _ => none
          | _ => none
      | _ => none
  | _ => none

/-- Epoch milliseconds denoted by an ISO-8601 UTC timestamp string
YYYY-MM-DDTHH:MM:SS.mmmZ, or by a bare date at midnight; none on any other
shape.  This is the instant the backend's timestamp column stores and
compares. -/
def isoToMs (s : String) : Option Nat :=
  match splitOnChar 'T' s.data with
  | [d] => ymdToMs d
  | [d, t] =>
      match ymdToMs d, timeToMs t with
      | some dayMs, some tMs => some (dayMs + tMs)
      | _, _ => none
  | _ => none

/-- Instant of a row's entry_date, for the backend's timestamp ordering. -/
def entryMs (e : EntryRow) : Nat :=
  (isoToMs e.entry_date).getD 0

/-- Sort rows by entry_date descending: the order clause with ascending set
to false that the hook puts on its selects. -/
def sortByEntryDateDesc (l : List EntryRow) : List EntryRow :=
  l.mergeSort (fun a b => decide (entryMs b ≤ entryMs a))

/-- Translation of searchEntries: nothing without a user or for a blank
query; otherwise the rows of the owner whose title or content text contains
the query case-insensitively (the or of the two ilike filters), ordered by
entry_date descending. -/
def searchEntries (user : Option String) (db : List EntryRow) (query : String) : List EntryRow :=
  match user with
  | none => []
  | some userId =>
      if query.trim = "" then []
      else
        sortByEntryDateDesc (db.filter (fun e =>
          e.user_id = userId ∧ (containsCI e.title query ∨ containsCI e.content.text query)))

/-- Membership test of getEntriesByDate: the row's entry_date instant lies
between the start of the day and 23:59:59.999 of the same day,
inclusively. -/
def inDay (startMs : Nat) (e : EntryRow) : Bool :=
  match isoToMs e.entry_date with
  | some t => decide (startMs ≤ t ∧ t ≤ startMs + 86399999)
  | none => false

/-- Translation of getEntriesByDate.  The date string is read as a calendar
day; with the runtime on UTC the two setHours calls yield that day's
00:00:00.000 and 23:59:59.999 instants, and the select keeps the owner's
rows whose entry_date is greater-equal the first and less-equal the second,
ordered by entry_date descending.  An unreadable date (an Invalid Date,
whose toISOString call throws into the catch-all) yields the empty list, as
does a missing user. -/
def getEntriesByDate (user : Option String) (db : List EntryRow) (date : String) : List EntryRow :=
  match user with
  | none => []
  | some userId =>
      match ymdToMs date.data with
      | none => []
      | some startMs =>
          sortByEntryDateDesc (db.filter (fun e => e.user_id = userId ∧ inDay startMs e))

/-- Ceiling, in bytes, the supported-type table configures for a MIME type:
the maxSize of the category whose mimeTypes carry it (zero for an
unsupported type, which validateFile rejects before any size check). -/
def maxSizeFor (mime : String) : Nat :=
  match SUPPORTED_FILE_TYPES.find? (fun config => config.mimeTypes.contains mime) with
  | some config => config.maxSize
  | none => 0

example : ymdToMs "2024-12-26".data = some 1735171200000 := by decide
example : isoToMs "2024-12-26T23:59:59.999Z" = some 1735257599999 := by decide
example : isoToMs "2024-12-27T00:00:00.000Z" = some 1735257600000 := by decide
example : ymdToMs "1970-01-01".data = some 0 := by decide

example : (validateFile { name := "a.png", size := 5, type := "image/png" }).isValid = true := by decide
example : (validateFile { name := "a.png", size := 10485761, type := "image/png" }).isValid = false := by decide
example : (validateFile { name := "a.exe", size := 5, type := "application/exe" }).isValid = false := by decide
example : extensionOf "archive.tar.gz" = ".gz" := by decide
example : extensionOf "README" = "README" := by decide
example : generateStoragePath "a.png" "u" 17 "tok" = "u/17-tok.png" := by decide

/-! ## Helper lemmas on the per-file upload step -/

/-- A file rejected by validation leaves the object store, the media table
and the result accumulator untouched. -/
theorem processFile_invalid_effects (userId : String) (entryId : Option String)
    (st : UploadState) (file : FileInfo) (env : FileEnv)
    (h : (validateFile file).isValid = false) :
    (processFile userId entryId st file env).storage = st.storage ∧
    (processFile userId entryId st file env).media = st.media ∧
    (processFile userId entryId st file env).uploadedMedia = st.uploadedMedia := by
  simp [processFile, h]

/-- A file that passes validation, writes its blob, and is rejected at the
media-table insert leaves the media table and the result accumulator
untouched; the object store keeps the just-written path when the best-effort
compensating remove fails, and returns to its pre-step value when the remove
succeeds. -/
theorem processFile_dbFail_effects (userId : String) (entryId : Option String)
    (st : UploadState) (file : FileInfo) (env : FileEnv)
    (hv : (validateFile file).isValid = true)
    (hs : env.storageFail = none)
    (hfresh : generateStoragePath file.name userId env.timestamp env.randomId ∉ st.storage)
    (hdb : env.dbFail = true) :
    (processFile userId entryId st file env).media = st.media ∧
    (processFile userId entryId st file env).uploadedMedia = st.uploadedMedia ∧
    (processFile userId entryId st file env).storage =
      (if env.removeFail then
        st.storage ++ [generateStoragePath file.name userId env.timestamp env.randomId]
      else st.storage) := by
  have herase : (st.storage ++ [generateStoragePath file.name userId env.timestamp env.randomId]).erase
      (generateStoragePath file.name userId env.timestamp env.randomId) = st.storage := by
    rw [List.erase_append_right _ hfresh, List.erase_cons_head]
    simp
  cases hr : env.removeFail
  · simp [processFile, hv, hs, hdb, hfresh, hr, herase]
  · simp [processFile, hv, hs, hdb, hfresh, hr]

/-- A file that completes every step appends its path to the object store and
its record to the media table and to the result accumulator. -/
theorem processFile_success_effects (userId : String) (entryId : Option String)
    (st : UploadState) (file : FileInfo) (env : FileEnv)
    (hv : (validateFile file).isValid = true)
    (hs : env.storageFail = none)
    (hfresh : generateStoragePath file.name userId env.timestamp env.randomId ∉ st.storage)
    (hdb : env.dbFail = false) :
    (processFile userId entryId st file env).storage =
      st.storage ++ [generateStoragePath file.name userId env.timestamp env.randomId] ∧
    (processFile userId entryId st file env).media = st.media ++ [mkMediaRecord userId entryId file env] ∧
    (processFile userId entryId st file env).uploadedMedia =
      st.uploadedMedia ++ [mkMediaRecord userId entryId file env] := by
  simp [processFile, hv, hs, hdb, hfresh]

/-- C1 counterexample: with the media insert rejected and the best-effort
storage remove itself failing, the just-written blob is still in the object
store when the step ends — the uploader only attempted the delete, because
the source discards the result of the compensating remove call. -/
theorem uploadFiles_remove_failure_counterexample :
    (processFile "u" none { storage := [], media := [], uploadProgress := [], uploadedMedia := [] }
        { name := "a.png", size := 3, type := "image/png" }
        { timestamp := 17, randomId := "tok", storageFail := none, dbFail := true,
          removeFail := true, genId := "id1", createdAt := "t0" }).storage = ["u/17-tok.png"] := by
  rfl

/-- C1 (amended): when a file's blob write succeeds and the media-table
insert then fails, the step issues a compensating delete for the blob at the
generated storage path before the next file starts and never adds the file
to the media table or to the returned sequence; the delete is best-effort —
the blob is absent from the object store exactly when the storage remove
itself succeeds, and survives as an orphan when that remove fails. -/
theorem uploadFiles_insert_failure_compensates (userId : String) (entryId : Option String)
    (st : UploadState) (file : FileInfo) (env : FileEnv)
    (hv : (validateFile file).isValid = true)
    (hs : env.storageFail = none)
    (hfresh : generateStoragePath file.name userId env.timestamp env.randomId ∉ st.storage)
    (hdb : env.dbFail = true) :
    (processFile userId entryId st file env).media = st.media ∧
    (processFile userId entryId st file env).uploadedMedia = st.uploadedMedia ∧
    (env.removeFail = false →
      (processFile userId entryId st file env).storage = st.storage ∧
      generateStoragePath file.name userId env.timestamp env.randomId ∉
        (processFile userId entryId st file env).storage) ∧
    (env.removeFail = true →
      (processFile userId entryId st file env).storage =
        st.storage ++ [generateStoragePath file.name userId env.timestamp env.randomId]) ∧
    (uploadFiles (some userId) [(file, env)] entryId st).2 = [] := by
  obtain ⟨h1, h2, h3⟩ := processFile_dbFail_effects userId entryId st file env hv hs hfresh hdb
  refine ⟨h1, h2, ?_, ?_, ?_⟩
  · intro hr
    have h4 : (processFile userId entryId st file env).storage = st.storage := by
      rw [h3, hr]
      simp
    exact ⟨h4, by rw [h4]; exact hfresh⟩
  · intro hr
    rw [h3, hr]
    simp
  · have h5 := processFile_dbFail_effects userId entryId
      { st with uploadProgress := [], uploadedMedia := [] } file env hv hs hfresh hdb
    simp only [uploadFiles, List.foldl_cons, List.foldl_nil]
    exact h5.2.1

/-- Concrete instance of the compensation theorem: a valid png whose insert
is rejected while the compensating remove succeeds leaves the object store
empty and is absent from the returned sequence. -/
theorem uploadFiles_insert_failure_compensates_witness :
    (processFile "u" none { storage := [], media := [], uploadProgress := [], uploadedMedia := [] }
        { name := "a.png", size := 3, type := "image/png" }
        { timestamp := 17, randomId := "tok", storageFail := none, dbFail := true,
          removeFail := false, genId := "id1", createdAt := "t0" }).storage = [] ∧
    (uploadFiles (some "u")
        [({ name := "a.png", size := 3, type := "image/png" },
          { timestamp := 17, randomId := "tok", storageFail := none, dbFail := true,
            removeFail := false, genId := "id1", createdAt := "t0" })] none
        { storage := [], media := [], uploadProgress := [], uploadedMedia := [] }).2 = [] := by
  have h := uploadFiles_insert_failure_compensates "u" none
    { storage := [], media := [], uploadProgress := [], uploadedMedia := [] }
    { name := "a.png", size := 3, type := "image/png" }
    { timestamp := 17, randomId := "tok", storageFail := none, dbFail := true,
      removeFail := false, genId := "id1", createdAt := "t0" }
    (by decide) rfl (by simp) rfl
  exact ⟨(h.2.2.1 rfl).1, h.2.2.2.2⟩

/-- C5: in a three-file batch whose second file fails validation, the first
and third files complete every step and make up the returned sequence in
order, the rejected file contributes nothing to it, and the object store and
media table gain exactly the first and third files' path and record — the
rejected file causes no storage or database side effects, whatever backend
replies its environment held. -/
theorem uploadFiles_batch_independence (userId : String) (entryId : Option String)
    (st : UploadState) (f1 f2 f3 : FileInfo) (e1 e2 e3 : FileEnv)
    (hv1 : (validateFile f1).isValid = true)
    (hv2 : (validateFile f2).isValid = false)
    (hv3 : (validateFile f3).isValid = true)
    (hs1 : e1.storageFail = none) (hd1 : e1.dbFail = false)
    (hs3 : e3.storageFail = none) (hd3 : e3.dbFail = false)
    (hp1 : generateStoragePath f1.name userId e1.timestamp e1.randomId ∉ st.storage)
    (hp3 : generateStoragePath f3.name userId e3.timestamp e3.randomId ∉ st.storage)
    (hne : generateStoragePath f3.name userId e3.timestamp e3.randomId ≠
           generateStoragePath f1.name userId e1.timestamp e1.randomId) :
    (uploadFiles (some userId) [(f1, e1), (f2, e2), (f3, e3)] entryId st).2 =
      [mkMediaRecord userId entryId f1 e1, mkMediaRecord userId entryId f3 e3] ∧
    (uploadFiles (some userId) [(f1, e1), (f2, e2), (f3, e3)] entryId st).1.storage =
      st.storage ++ [generateStoragePath f1.name userId e1.timestamp e1.randomId,
                     generateStoragePath f3.name userId e3.timestamp e3.randomId] ∧
    (uploadFiles (some userId) [(f1, e1), (f2, e2), (f3, e3)] entryId st).1.media =
      st.media ++ [mkMediaRecord userId entryId f1 e1, mkMediaRecord userId entryId f3 e3] := by
  have hres : uploadFiles (some userId) [(f1, e1), (f2, e2), (f3, e3)] entryId st =
      (processFile userId entryId
        (processFile userId entryId
          (processFile userId entryId { st with uploadProgress := [], uploadedMedia := [] } f1 e1)
          f2 e2) f3 e3,
       (processFile userId entryId
        (processFile userId entryId
          (processFile userId entryId { st with uploadProgress := [], uploadedMedia := [] } f1 e1)
          f2 e2) f3 e3).uploadedMedia) := by
    simp only [uploadFiles, List.foldl_cons, List.foldl_nil]
  obtain ⟨a1, b1, c1⟩ := processFile_success_effects userId entryId
    { st with uploadProgress := [], uploadedMedia := [] } f1 e1 hv1 hs1 hp1 hd1
  obtain ⟨a2, b2, c2⟩ := processFile_invalid_effects userId entryId
    (processFile userId entryId { st with uploadProgress := [], uploadedMedia := [] } f1 e1) f2 e2 hv2
  have hp3s : generateStoragePath f3.name userId e3.timestamp e3.randomId ∉
      (processFile userId entryId
        (processFile userId entryId { st with uploadProgress := [], uploadedMedia := [] } f1 e1)
        f2 e2).storage := by
    rw [a2, a1]
    simp only [List.mem_append, List.mem_singleton]
    rintro (h | h)
    · exact hp3 h
    · exact hne h
  obtain ⟨a3, b3, c3⟩ := processFile_success_effects userId entryId
    (processFile userId entryId
      (processFile userId entryId { st with uploadProgress := [], uploadedMedia := [] } f1 e1)
      f2 e2) f3 e3 hv3 hs3 hp3s hd3
  rw [hres]
  refine ⟨?_, ?_, ?_⟩
  · rw [c3, c2, c1]; simp
  · rw [a3, a2, a1]; simp
  · rw [b3, b2, b1]; simp

/-- Concrete instance of batch independence: png, unsupported executable,
pdf — the returned sequence holds exactly the png and pdf records. -/
theorem uploadFiles_batch_independence_witness :
    (uploadFiles (some "u")
      [({ name := "a.png", size := 3, type := "image/png" },
        { timestamp := 17, randomId := "r1", storageFail := none, dbFail := false, removeFail := false,
          genId := "m1", createdAt := "t1" }),
       ({ name := "b.exe", size := 3, type := "application/exe" },
        { timestamp := 18, randomId := "r2", storageFail := none, dbFail := false, removeFail := false,
          genId := "m2", createdAt := "t2" }),
       ({ name := "c.pdf", size := 3, type := "application/pdf" },
        { timestamp := 19, randomId := "r3", storageFail := none, dbFail := false, removeFail := false,
          genId := "m3", createdAt := "t3" })] none
      { storage := [], media := [], uploadProgress := [], uploadedMedia := [] }).2 =
    [{ id := "m1", user_id := "u", entry_id := none, storage_path := "u/17-r1.png",
       file_name := "a.png", file_size := 3, mime_type := "image/png", created_at := "t1" },
     { id := "m3", user_id := "u", entry_id := none, storage_path := "u/19-r3.pdf",
       file_name := "c.pdf", file_size := 3, mime_type := "application/pdf", created_at := "t3" }] := by
  have h := uploadFiles_batch_independence "u" none
    { storage := [], media := [], uploadProgress := [], uploadedMedia := [] }
    { name := "a.png", size := 3, type := "image/png" }
    { name := "b.exe", size := 3, type := "application/exe" }
    { name := "c.pdf", size := 3, type := "application/pdf" }
    { timestamp := 17, randomId := "r1", storageFail := none, dbFail := false, removeFail := false,
      genId := "m1", createdAt := "t1" }
    { timestamp := 18, randomId := "r2", storageFail := none, dbFail := false, removeFail := false,
      genId := "m2", createdAt := "t2" }
    { timestamp := 19, randomId := "r3", storageFail := none, dbFail := false, removeFail := false,
      genId := "m3", createdAt := "t3" }
    (by decide) (by decide) (by decide) rfl rfl rfl rfl (by simp) (by simp) (by decide)
  rw [h.1]
  refine congrArg₂ _ ?_ (congrArg₂ _ ?_ rfl)
  · show mkMediaRecord "u" none { name := "a.png", size := 3, type := "image/png" }
      { timestamp := 17, randomId := "r1", storageFail := none, dbFail := false,
        removeFail := false, genId := "m1", createdAt := "t1" } = _
    decide
  · show mkMediaRecord "u" none { name := "c.pdf", size := 3, type := "application/pdf" }
      { timestamp := 19, randomId := "r3", storageFail := none, dbFail := false,
        removeFail := false, genId := "m3", createdAt := "t3" } = _
    decide

/-- Validity of a file is exactly: supported declared type, and size within
the ceiling the table configures for that type. -/
theorem validateFile_isValid_iff (file : FileInfo) :
    (validateFile file).isValid = true ↔
      file.type ∈ allSupportedTypes ∧ file.size ≤ maxSizeFor file.type := by
  by_cases hmem : file.type ∈ allSupportedTypes
  · rcases List.mem_flatten.mp hmem with ⟨l, hl, hml⟩
    rcases List.mem_map.mp hl with ⟨c, hcT, rfl⟩
    have hsome : (SUPPORTED_FILE_TYPES.find?
        (fun config => config.mimeTypes.contains file.type)).isSome := by
      rw [List.find?_isSome]
      exact ⟨c, hcT, by simpa using hml⟩
    cases hfind : SUPPORTED_FILE_TYPES.find?
        (fun config => config.mimeTypes.contains file.type) with
    | none => rw [hfind] at hsome; simp at hsome
    | some c0 =>
        have hmax : maxSizeFor file.type = c0.maxSize := by
          simp only [maxSizeFor, hfind]
        unfold validateFile
        rw [if_pos hmem, hfind, hmax]
        simp only []
        by_cases hsz : file.size > c0.maxSize
        · rw [if_pos hsz]
          simp only [Bool.false_eq_true, false_iff, not_and]
          intro _
          omega
        · rw [if_neg hsz]
          simp only [true_iff]
          exact ⟨hmem, by omega⟩
  · simp [validateFile, hmem]

/-- C4: a file is valid exactly when its declared MIME type appears in the
supported-type table and its size does not exceed the ceiling configured for
that type; an invalid file carries a reason; the ceilings are 10 MB for every
image type, 50 MB for audio, 100 MB for video and 25 MB for the documents
allowlist.  The embedding of validateFile is a plain function of the file
record, matching the pure, synchronous, I/O-free source. -/
theorem validateFile_spec (file : FileInfo) :
    ((validateFile file).isValid = true ↔
      file.type ∈ allSupportedTypes ∧ file.size ≤ maxSizeFor file.type)
    ∧ ((validateFile file).isValid = false → (validateFile file).error.isSome = true)
    ∧ (∀ m ∈ imagesConfig.mimeTypes, maxSizeFor m = 10 * 1024 * 1024)
    ∧ (∀ m ∈ audioConfig.mimeTypes, maxSizeFor m = 50 * 1024 * 1024)
    ∧ (∀ m ∈ videoConfig.mimeTypes, maxSizeFor m = 100 * 1024 * 1024)
    ∧ (∀ m ∈ documentsConfig.mimeTypes, maxSizeFor m = 25 * 1024 * 1024) := by
  refine ⟨validateFile_isValid_iff file, ?_, by decide, by decide, by decide, by decide⟩
  by_cases hmem : file.type ∈ allSupportedTypes
  · cases hfind : SUPPORTED_FILE_TYPES.find?
        (fun config => config.mimeTypes.contains file.type) with
    | none => unfold validateFile; rw [if_pos hmem, hfind]; simp
    | some c0 =>
        unfold validateFile
        rw [if_pos hmem, hfind]
        simp only []
        by_cases hsz : file.size > c0.maxSize
        · rw [if_pos hsz]; simp
        · rw [if_neg hsz]; simp
  · unfold validateFile; rw [if_neg hmem]; simp

/-- Concrete instances of the validation rule: a small png is accepted, the
same png one byte over the 10 MB image ceiling is rejected. -/
theorem validateFile_spec_witness :
    (validateFile { name := "a.png", size := 3, type := "image/png" }).isValid = true
    ∧ (validateFile { name := "a.png", size := 10485761, type := "image/png" }).isValid = false := by
  constructor
  · exact (validateFile_spec { name := "a.png", size := 3, type := "image/png" }).1.mpr (by decide)
  · have h := (validateFile_spec { name := "a.png", size := 10485761, type := "image/png" }).1
    rw [Bool.eq_false_iff]
    intro hv
    exact absurd (h.mp hv) (by decide)

/-- C9: the generated storage path is the owner id, a slash, the timestamp, a
dash, the random token and the original file name's extension, in that
order; and with the other inputs fixed, distinct random tokens always give
distinct paths, which is what keeps two uploads of the same file name in the
same millisecond apart. -/
theorem generateStoragePath_spec :
    (∀ fileName userId timestamp randomId,
        generateStoragePath fileName userId timestamp randomId =
          userId ++ "/" ++ toString timestamp ++ "-" ++ randomId ++ extensionOf fileName)
    ∧ (∀ fileName userId timestamp r1 r2, r1 ≠ r2 →
        generateStoragePath fileName userId timestamp r1 ≠
          generateStoragePath fileName userId timestamp r2) := by
  refine ⟨fun _ _ _ _ => rfl, ?_⟩
  intro fileName userId timestamp r1 r2 hne heq
  apply hne
  have h := congrArg String.data heq
  simp only [generateStoragePath, String.data_append, List.append_assoc] at h
  have h1 := List.append_cancel_left h
  have h2 := List.append_cancel_left h1
  have h3 := List.append_cancel_left h2
  have h4 := List.append_cancel_left h3
  exact String.ext (List.append_cancel_right h4)

/-- Concrete instance of collision resistance: with the same file, owner and
timestamp, the tokens x and y give different paths. -/
theorem generateStoragePath_spec_witness :
    generateStoragePath "a.png" "u" 17 "x" ≠ generateStoragePath "a.png" "u" 17 "y" :=
  generateStoragePath_spec.2 "a.png" "u" 17 "x" "y" (by decide)

/-- C6: without an authenticated user every operation fails fast with no
remote work: uploadFiles returns the empty sequence and leaves every state as
it was, createEntry and updateEntry return null and leave the table and list
untouched, deleteEntry and deleteMedia return false and touch nothing,
loadEntries only clears its loading flag — its outcome never depends on any
fetch reply — and searchEntries and getEntriesByDate return the empty list
whatever the table holds, issuing no query. -/
theorem unauthenticated_operations_noop :
    (∀ files entryId st, uploadFiles none files entryId st = (st, []))
    ∧ (∀ db st data env, createEntry none db st data env = (db, st, none))
    ∧ (∀ db st id patch now remoteFail, updateEntry none db st id patch now remoteFail = (db, st, none))
    ∧ (∀ db st id remoteFail, deleteEntry none db st id remoteFail = (db, st, false))
    ∧ (∀ storage media mediaId a b c, deleteMedia none storage media mediaId a b c = (storage, media, false))
    ∧ (∀ st fetchResult, loadEntries none st fetchResult = { st with loading := false })
    ∧ (∀ db q, searchEntries none db q = [])
    ∧ (∀ db d, getEntriesByDate none db d = []) := by
  refine ⟨fun _ _ _ => rfl, fun _ _ _ _ => rfl, fun _ _ _ _ _ _ => rfl,
    fun _ _ _ _ => rfl, fun _ _ _ _ _ _ => rfl, fun _ _ => rfl, fun _ _ => rfl, fun _ _ => rfl⟩

/-- C8: a failing fetch during loadEntries stores an error message and leaves
the previously loaded in-memory list exactly as it was — stale but available,
never cleared. -/
theorem loadEntries_failure_preserves_entries (userId : String) (st : EntryStoreState) (msg : String) :
    (loadEntries (some userId) st (Except.error msg)).entries = st.entries
    ∧ (loadEntries (some userId) st (Except.error msg)).error = some "Failed to load entries" :=
  ⟨rfl, rfl⟩

/-- Filtering twice with one predicate equals filtering once. -/
theorem filter_idem {α : Type} (p : α → Bool) (l : List α) :
    (l.filter p).filter p = l.filter p := by
  rw [List.filter_filter]
  congr 1
  funext a
  exact Bool.and_self (p a)

/-- C2 counterexample: deleting an id that matches no row — "e1" over an
empty table, and again the second call of a double delete — completes the
delete-by-filter without error, so the hook returns true, where the claim
demands false. -/
theorem deleteEntry_missing_row_counterexample :
    (deleteEntry (some "u") [] { entries := [], loading := false, error := none } "e1" false).2.2 = true
    ∧ (let row : EntryRow :=
         { id := "e1", user_id := "u", title := "T", content := { text := "x", tags := [] },
           entry_date := "2024-01-01T00:00:00.000Z", location_text := none,
           weather_summary := none, created_at := "c", updated_at := "c" }
       let st0 : EntryStoreState := { entries := [row], loading := false, error := none }
       let r1 := deleteEntry (some "u") [row] st0 "e1" false
       (deleteEntry (some "u") r1.1 r1.2.1 "e1" false).2.2 = true) := by
  constructor
  · rfl
  · rfl

/-- C2 (amended): an error-free delete removes from the remote table exactly
the rows matching both the id and the caller, removes the id from the
in-memory list, and returns true — also when nothing matched, since a
delete-by-filter that matches no row raises no error; hence the second call
of a double delete performs no further mutation and returns true again, not
false. -/
theorem deleteEntry_spec (userId id : String) (db : List EntryRow) (st : EntryStoreState) :
    deleteEntry (some userId) db st id false =
      (db.filter (fun e => ¬ (e.id = id ∧ e.user_id = userId)),
       { st with entries := st.entries.filter (fun e => ¬ e.id = id) },
       true)
    ∧ deleteEntry (some userId)
        (deleteEntry (some userId) db st id false).1
        (deleteEntry (some userId) db st id false).2.1 id false =
      ((deleteEntry (some userId) db st id false).1,
       (deleteEntry (some userId) db st id false).2.1,
       true) := by
  have key : ∀ (db2 : List EntryRow) (st2 : EntryStoreState),
      deleteEntry (some userId) db2 st2 id false =
        (db2.filter (fun e => ¬ (e.id = id ∧ e.user_id = userId)),
         { st2 with entries := st2.entries.filter (fun e => ¬ e.id = id) },
         true) := fun _ _ => rfl
  refine ⟨key db st, ?_⟩
  rw [key db st, key]
  simp only []
  rw [filter_idem, filter_idem]

/-- The value-or-default fold is the plain option default when the value is
not the empty string. -/
theorem orDefault_of_ne_empty (v : Option String) (d : String) (h : v ≠ some "") :
    orDefault v d = v.getD d := by
  cases v with
  | none => rfl
  | some s =>
      have hs : ¬ s = "" := fun hs => h (by rw [hs])
      simp [orDefault, hs]

/-- The value-or-null fold is the identity when the value is not the empty
string. -/
theorem orNull_of_ne_empty (v : Option String) (h : v ≠ some "") :
    orNull v = v := by
  cases v with
  | none => rfl
  | some s =>
      have hs : ¬ s = "" := fun hs => h (by rw [hs])
      simp [orNull, hs]

/-- C3 counterexample: a form that supplies the empty string as its location
text yields a created entry whose location text is null, not the supplied
empty string, so not every supplied field survives verbatim. -/
theorem createEntry_roundtrip_counterexample :
    ((createEntry (some "u") [] { entries := [], loading := false, error := none }
        { title := "T", content := "hello", entry_date := some "2024-01-02T03:04:05.006Z",
          location_text := some "", weather_summary := some "w", tags := some ["a"] }
        { genId := "e1", now := "2024-01-02T03:04:05.006Z", dbFail := false }).2.1.entries.map
      (fun e => e.location_text)) = [none] := by
  rfl

/-- C3 (amended): for form data whose optional string fields are absent or
non-empty, a successful create prepends the created entry to the in-memory
list — so an immediate read of the list yields it first — and the entry
carries the supplied title, the supplied content text with the supplied tags
embedded beside it in the content document, the supplied entry date
(defaulting to the creation instant when absent), and the supplied location
and weather annotations; empty-string optional fields are excluded because
the code folds them to their defaults. -/
theorem createEntry_roundtrip (userId : String) (db : List EntryRow) (st : EntryStoreState)
    (data : EntryFormData) (env : CreateEnv)
    (hdb : env.dbFail = false)
    (hed : data.entry_date ≠ some "")
    (hlt : data.location_text ≠ some "")
    (hws : data.weather_summary ≠ some "") :
    ∃ e : EntryRow,
      (createEntry (some userId) db st data env).2.2 = some e ∧
      (createEntry (some userId) db st data env).2.1.entries.head? = some e ∧
      e.title = data.title ∧
      e.content.text = data.content ∧
      e.content.tags = data.tags.getD [] ∧
      e.entry_date = data.entry_date.getD env.now ∧
      e.location_text = data.location_text ∧
      e.weather_summary = data.weather_summary ∧
      e.user_id = userId := by
  simp only [createEntry, hdb, Bool.false_eq_true, if_false]
  exact ⟨_, rfl, rfl, rfl, rfl, rfl,
    orDefault_of_ne_empty data.entry_date env.now hed,
    orNull_of_ne_empty data.location_text hlt,
    orNull_of_ne_empty data.weather_summary hws, rfl⟩

/-- Concrete instance of the round trip: after creating an entry with
non-empty optional fields, the first element of the in-memory list carries
the supplied location text verbatim. -/
theorem createEntry_roundtrip_witness :
    ((createEntry (some "u") [] { entries := [], loading := false, error := none }
        { title := "T", content := "hello", entry_date := some "2024-01-02T03:04:05.006Z",
          location_text := some "here", weather_summary := some "sunny", tags := some ["a", "b"] }
        { genId := "e1", now := "NOW", dbFail := false }).2.1.entries.head?).map
      (fun e => (e.title, e.location_text, e.content.tags)) =
    some ("T", some "here", ["a", "b"]) := by
  obtain ⟨e, h1, h2, h3, h4, h5, h6, h7, h8, h9⟩ :=
    createEntry_roundtrip "u" [] { entries := [], loading := false, error := none }
      { title := "T", content := "hello", entry_date := some "2024-01-02T03:04:05.006Z",
        location_text := some "here", weather_summary := some "sunny", tags := some ["a", "b"] }
      { genId := "e1", now := "NOW", dbFail := false }
      rfl (by decide) (by decide) (by decide)
  rw [h2]
  simp only [Option.map_some']
  rw [h3, h7, h5]
  rfl

/-- C10: optional fields supplied as empty strings are coerced to their
defaults by the falsiness checks of createEntry: an empty location text or
weather summary is stored as null, and an empty entry date is replaced by
the creation instant. -/
theorem createEntry_empty_string_defaults (userId : String) (db : List EntryRow)
    (st : EntryStoreState) (data : EntryFormData) (env : CreateEnv)
    (hdb : env.dbFail = false)
    (hed : data.entry_date = some "")
    (hlt : data.location_text = some "")
    (hws : data.weather_summary = some "") :
    ∃ e : EntryRow,
      (createEntry (some userId) db st data env).2.2 = some e ∧
      e.location_text = none ∧
      e.weather_summary = none ∧
      e.entry_date = env.now := by
  simp only [createEntry, hdb, Bool.false_eq_true, if_false]
  exact ⟨_, rfl, by simp [orNull, hlt], by simp [orNull, hws], by simp [orDefault, hed]⟩

/-- Concrete instance of the empty-string coercion: empty location, weather
and entry date come back as null, null and the creation instant. -/
theorem createEntry_empty_string_defaults_witness :
    ((createEntry (some "u") [] { entries := [], loading := false, error := none }
        { title := "T", content := "c", entry_date := some "", location_text := some "",
          weather_summary := some "", tags := none }
        { genId := "e1", now := "NOW", dbFail := false }).2.2).map
      (fun e => (e.location_text, e.weather_summary, e.entry_date)) =
    some (none, none, "NOW") := by
  obtain ⟨e, h1, h2, h3, h4⟩ :=
    createEntry_empty_string_defaults "u" [] { entries := [], loading := false, error := none }
      { title := "T", content := "c", entry_date := some "", location_text := some "",
        weather_summary := some "", tags := none }
      { genId := "e1", now := "NOW", dbFail := false }
      rfl rfl rfl rfl
  rw [h1]
  simp only [Option.map_some']
  rw [h2, h3, h4]

/-- The day-membership test holds exactly when the entry date parses to an
instant lying in the inclusive window of the day. -/
theorem inDay_iff (startMs : Nat) (e : EntryRow) :
    inDay startMs e = true ↔
      ∃ t, isoToMs e.entry_date = some t ∧ startMs ≤ t ∧ t ≤ startMs + 86399999 := by
  unfold inDay
  cases h : isoToMs e.entry_date with
  | none => simp
  | some t => simp [h]

/-- The descending entry-date sort yields a list that is pairwise descending
in the entry-date instants. -/
theorem sortByEntryDateDesc_sorted (l : List EntryRow) :
    (sortByEntryDateDesc l).Pairwise (fun a b => entryMs b ≤ entryMs a) := by
  have htrans : ∀ a b c : EntryRow,
      (fun a b => decide (entryMs b ≤ entryMs a)) a b = true →
      (fun a b => decide (entryMs b ≤ entryMs a)) b c = true →
      (fun a b => decide (entryMs b ≤ entryMs a)) a c = true := by
    intro a b c hab hbc
    rw [decide_eq_true_eq] at hab hbc ⊢
    exact le_trans hbc hab
  have htotal : ∀ a b : EntryRow,
      ((fun a b => decide (entryMs b ≤ entryMs a)) a b ||
       (fun a b => decide (entryMs b ≤ entryMs a)) b a) = true := by
    intro a b
    simp only [Bool.or_eq_true, decide_eq_true_eq]
    exact Nat.le_total (entryMs b) (entryMs a)
  exact (List.sorted_mergeSort htrans htotal l).imp (fun h => of_decide_eq_true h)

/-- C7: getEntriesByDate over a readable date returns exactly the caller's
rows whose entry-date instant lies in the inclusive window from 00:00:00.000
to 23:59:59.999 of that calendar day, in entry-date descending order; in
particular an entry at the final millisecond of 2024-12-26 falls inside the
window of that day and an entry at the first millisecond of 2024-12-27 falls
outside it. -/
theorem getEntriesByDate_spec (userId : String) (db : List EntryRow) (date : String)
    (startMs : Nat) (h : ymdToMs date.data = some startMs) :
    (∀ e, e ∈ getEntriesByDate (some userId) db date ↔
       e ∈ db ∧ e.user_id = userId ∧
       ∃ t, isoToMs e.entry_date = some t ∧ startMs ≤ t ∧ t ≤ startMs + 86399999)
    ∧ (getEntriesByDate (some userId) db date).Pairwise (fun a b => entryMs b ≤ entryMs a) := by
  constructor
  · intro e
    simp only [getEntriesByDate, h, sortByEntryDateDesc, List.mem_mergeSort, List.mem_filter,
      decide_eq_true_eq, and_assoc, inDay_iff]
  · simp only [getEntriesByDate, h]
    exact sortByEntryDateDesc_sorted _

/-- Concrete boundary instance: for the day 2024-12-26, the entry dated
2024-12-26T23:59:59.999Z is returned and the entry dated
2024-12-27T00:00:00.000Z is not. -/
theorem getEntriesByDate_spec_witness :
    ({ id := "e1", user_id := "u", title := "A", content := { text := "x", tags := [] },
       entry_date := "2024-12-26T23:59:59.999Z", location_text := none, weather_summary := none,
       created_at := "c", updated_at := "c" } : EntryRow) ∈
      getEntriesByDate (some "u")
        [{ id := "e1", user_id := "u", title := "A", content := { text := "x", tags := [] },
           entry_date := "2024-12-26T23:59:59.999Z", location_text := none, weather_summary := none,
           created_at := "c", updated_at := "c" },
         { id := "e2", user_id := "u", title := "B", content := { text := "y", tags := [] },
           entry_date := "2024-12-27T00:00:00.000Z", location_text := none, weather_summary := none,
           created_at := "c", updated_at := "c" }] "2024-12-26"
    ∧ ({ id := "e2", user_id := "u", title := "B", content := { text := "y", tags := [] },
         entry_date := "2024-12-27T00:00:00.000Z", location_text := none, weather_summary := none,
         created_at := "c", updated_at := "c" } : EntryRow) ∉
      getEntriesByDate (some "u")
        [{ id := "e1", user_id := "u", title := "A", content := { text := "x", tags := [] },
           entry_date := "2024-12-26T23:59:59.999Z", location_text := none, weather_summary := none,
           created_at := "c", updated_at := "c" },
         { id := "e2", user_id := "u", title := "B", content := { text := "y", tags := [] },
           entry_date := "2024-12-27T00:00:00.000Z", location_text := none, weather_summary := none,
           created_at := "c", updated_at := "c" }] "2024-12-26" := by
  have h := getEntriesByDate_spec "u"
    [{ id := "e1", user_id := "u", title := "A", content := { text := "x", tags := [] },
       entry_date := "2024-12-26T23:59:59.999Z", location_text := none, weather_summary := none,
       created_at := "c", updated_at := "c" },
     { id := "e2", user_id := "u", title := "B", content := { text := "y", tags := [] },
       entry_date := "2024-12-27T00:00:00.000Z", location_text := none, weather_summary := none,
       created_at := "c", updated_at := "c" }] "2024-12-26" 1735171200000 (by decide)
  constructor
  · refine (h.1 _).mpr ⟨by simp, rfl, 1735257599999, by decide, by decide, by decide⟩
  · intro hmem
    obtain ⟨-, -, t, ht, hlo, hhi⟩ := (h.1 _).mp hmem
    have hc : isoToMs "2024-12-27T00:00:00.000Z" = some 1735257600000 := by decide
    rw [hc] at ht
    have ht2 : t = 1735257600000 := (Option.some.inj ht).symm
    omega
